import Mathlib

/-
  Verification of the cluster command-generation and execution engine of
  cloudberry-go-libs (src/cluster/cluster.go), as a shallow embedding.

  Go maps are embedded as functions with pointwise update; Go slices as
  lists; the variadic role parameter as a list of strings; the polymorphic
  generator argument (a Go interface value inspected by a type switch) as a
  tagged sum with an extra case for values matching neither accepted shape.
-/

namespace Cloudberry

/-- Embeds the Go struct SegConfig (cluster.go lines 57-68). -/
structure SegConfig where
  DbID          : Int
  ContentID     : Int
  Role          : String
  PreferredRole : String
  Mode          : String
  Status        : String
  Port          : Int
  Hostname      : String
  Address       : String
  DataDir       : String
deriving Repr, DecidableEq

/-- Scope is a uint8 bitmask in the source; only bits 0..3 are used, so it is
embedded as a natural number with the same bit tests. -/
abbrev Scope := Nat

def ON_SEGMENTS : Scope := 0
def ON_HOSTS : Scope := 1
def EXCLUDE_COORDINATOR : Scope := 0
def INCLUDE_COORDINATOR : Scope := 2
def ON_REMOTE : Scope := 0
def ON_LOCAL : Scope := 4
def EXCLUDE_MIRRORS : Scope := 0
def INCLUDE_MIRRORS : Scope := 8

def scopeIsSegments (scope : Scope) : Bool := scope &&& ON_HOSTS == ON_SEGMENTS

def scopeIsHosts (scope : Scope) : Bool := scope &&& ON_HOSTS == ON_HOSTS

def scopeExcludesCoordinator (scope : Scope) : Bool :=
  scope &&& INCLUDE_COORDINATOR == EXCLUDE_COORDINATOR

def scopeIncludesCoordinator (scope : Scope) : Bool :=
  scope &&& INCLUDE_COORDINATOR == INCLUDE_COORDINATOR

def scopeIsRemote (scope : Scope) : Bool := scope &&& ON_LOCAL == ON_REMOTE

def scopeIsLocal (scope : Scope) : Bool := scope &&& ON_LOCAL == ON_LOCAL

def scopeExcludesMirrors (scope : Scope) : Bool :=
  scope &&& INCLUDE_MIRRORS == EXCLUDE_MIRRORS

def scopeIncludesMirrors (scope : Scope) : Bool :=
  scope &&& INCLUDE_MIRRORS == INCLUDE_MIRRORS

/-- Embeds the Go struct ShellCommand (cluster.go lines 175-186).  The
exec.Cmd value is represented by its argv token list; the error fields
become an Option and a list of accumulated wrapped attempt errors (a nil Go
error is none resp. the empty list). -/
structure ShellCommand where
  Scope         : Scope
  Content       : Int
  Host          : String
  Command       : List String
  CommandString : String
  Stdout        : String
  Stderr        : String
  Error         : Option String
  RetryError    : List String
  Completed     : Bool
deriving Repr, DecidableEq

/-- Embeds NewShellCommand (cluster.go lines 188-196). -/
def NewShellCommand (scope : Scope) (content : Int) (host : String)
    (command : List String) : ShellCommand :=
  { Scope := scope
    Content := content
    Host := host
    Command := command
    CommandString := String.intercalate (" ") command
    Stdout := ""
    Stderr := ""
    Error := none
    RetryError := []
    Completed := false }

/-- Embeds the Go struct RemoteOutput (cluster.go lines 202-208). -/
structure RemoteOutput where
  Scope           : Scope
  NumErrors       : Nat
  Commands        : List ShellCommand
  FailedCommands  : List ShellCommand
  RetriedCommands : List ShellCommand
deriving Repr

/-- The loop body of NewRemoteOutput (cluster.go lines 213-219): a command
with a terminal error goes to the failed list, else one with a retry error
goes to the retried list, else it is classified into neither. -/
def classifyStep (p : List ShellCommand × List ShellCommand)
    (command : ShellCommand) : List ShellCommand × List ShellCommand :=
  if command.Error.isSome then (p.1 ++ [command], p.2)
  else if !command.RetryError.isEmpty then (p.1, p.2 ++ [command])
  else p

/-- Embeds NewRemoteOutput (cluster.go lines 210-227): one pass over the
commands appending those with a terminal error to FailedCommands and those
with no terminal error but a retry error to RetriedCommands. -/
def NewRemoteOutput (scope : Scope) (numErrors : Nat)
    (commands : List ShellCommand) : RemoteOutput :=
  let classified := commands.foldl classifyStep ([], [])
  { Scope := scope
    NumErrors := numErrors
    Commands := commands
    FailedCommands := classified.1
    RetriedCommands := classified.2 }

/-- Embeds the Go struct Cluster (cluster.go lines 48-55).  The two Go maps
are embedded as functions from key to the list of segments stored there
(a missing key maps to the empty list, matching a nil slice). -/
structure Cluster where
  ContentIDs : List Int
  Hostnames  : List String
  Segments   : List SegConfig
  ByContent  : Int → List SegConfig
  ByHost     : String → List SegConfig

/-- The accumulator threaded through the construction loop of NewCluster. -/
structure BuildState where
  byContent : Int → List SegConfig
  byHost    : String → List SegConfig
  hostnames : List String

/-- The defensive normalization inside NewCluster (cluster.go lines 244-251):
exactly when the per-content list has length two and its first entry is a
mirror, the two entries are swapped. -/
def normalizePair (l : List SegConfig) : List SegConfig :=
  match l with
  | [a, b] => if a.Role == "m" then [b, a] else [a, b]
  | _ => l

/-- One iteration of the loop body of NewCluster (cluster.go lines 240-256):
append the segment to its content list (then normalize), append it to its
host list, and record the hostname the first time it is seen. -/
def addSegment (st : BuildState) (s : SegConfig) : BuildState :=
  let contentList := normalizePair (st.byContent s.ContentID ++ [s])
  let hostList := st.byHost s.Hostname ++ [s]
  { byContent := fun c => if c == s.ContentID then contentList else st.byContent c
    byHost := fun h => if h == s.Hostname then hostList else st.byHost h
    hostnames :=
      if hostList.length == 1 then st.hostnames ++ [s.Hostname] else st.hostnames }

def emptyBuildState : BuildState :=
  { byContent := fun _ => [], byHost := fun _ => [], hostnames := [] }

/-- Embeds NewCluster (cluster.go lines 233-262).  The Go code collects the
keys of the ByContent map in (unspecified) map-iteration order and then
sorts them ascending; since the keys are exactly the distinct content ids of
the input, the sorted result is the ascending sort of the deduplicated
content ids. -/
def NewCluster (segConfigs : List SegConfig) : Cluster :=
  let st := segConfigs.foldl addSegment emptyBuildState
  { ContentIDs := List.insertionSort (fun a b => a ≤ b) (segConfigs.map (fun s => s.ContentID)).dedup
    Hostnames := st.hostnames
    Segments := segConfigs
    ByContent := st.byContent
    ByHost := st.byHost }

/-- Embeds getSegmentByRole (cluster.go lines 489-500); the Go variadic role
parameter is a list. -/
def getSegmentByRole (segmentList : List SegConfig) (role : List String) :
    Option SegConfig :=
  if role.length == 1 && role.headD ("") == "m" then
    match segmentList with
    | _ :: second :: _ => some second
    | _ => none
  else
    match segmentList with
    | first :: _ => some first
    | [] => none

/-- Embeds GetDbidForContent (cluster.go lines 502-508). -/
def GetDbidForContent (cluster : Cluster) (contentID : Int)
    (role : List String) : Int :=
  match getSegmentByRole (cluster.ByContent contentID) role with
  | none => -1
  | some segConfig => segConfig.DbID

/-- Embeds GetPortForContent (cluster.go lines 510-516). -/
def GetPortForContent (cluster : Cluster) (contentID : Int)
    (role : List String) : Int :=
  match getSegmentByRole (cluster.ByContent contentID) role with
  | none => -1
  | some segConfig => segConfig.Port

/-- Embeds GetHostForContent (cluster.go lines 518-524). -/
def GetHostForContent (cluster : Cluster) (contentID : Int)
    (role : List String) : String :=
  match getSegmentByRole (cluster.ByContent contentID) role with
  | none => ""
  | some segConfig => segConfig.Hostname

/-- Embeds GetDirForContent (cluster.go lines 526-532). -/
def GetDirForContent (cluster : Cluster) (contentID : Int)
    (role : List String) : String :=
  match getSegmentByRole (cluster.ByContent contentID) role with
  | none => ""
  | some segConfig => segConfig.DataDir

/-- Embeds GetContentsForHost (cluster.go lines 542-548). -/
def GetContentsForHost (cluster : Cluster) (hostname : String) : List Int :=
  (cluster.ByHost hostname).map (fun seg => seg.ContentID)

/-- Embeds GetDbidsForHost (cluster.go lines 534-540). -/
def GetDbidsForHost (cluster : Cluster) (hostname : String) : List Int :=
  (cluster.ByHost hostname).map (fun seg => seg.DbID)

/-- The generator argument of GenerateCommandList is a Go interface value
inspected by a type switch with cases for func(int) []string and
func(string) []string; any other value falls to the default case.  The sum
type mirrors the three branches. -/
inductive Generator where
  | perContent (f : Int → List String)
  | perHost (f : String → List String)
  | invalid

/-- Result of command-list generation: either the produced list, or the
fatal termination raised by gplog.Fatal in the default branch. -/
inductive GenResult where
  | ok (commands : List ShellCommand)
  | fatal
deriving DecidableEq

/-- The two skip conditions of the per-host loop of GenerateCommandList
(cluster.go lines 287-295): the coordinator host is skipped when the scope
excludes the coordinator and the host carries exactly one content, and the
standby-coordinator host is skipped when the scope excludes mirrors and the
host carries exactly one content. -/
def hostIsSkipped (cluster : Cluster) (scope : Scope) (host : String) : Bool :=
  let hostHasOneContent := (GetContentsForHost cluster host).length == 1
  (host == GetHostForContent cluster (-1) ["p"] && scopeExcludesCoordinator scope
      && hostHasOneContent)
  || (host == GetHostForContent cluster (-1) ["m"] && scopeExcludesMirrors scope
      && hostHasOneContent)

/-- The per-content branch of GenerateCommandList (cluster.go lines 278-284):
iterate content ids, skip -1 when the scope excludes the coordinator, and
build a ShellCommand with the content as identity and the host left at the
empty sentinel. -/
def generateCommandListContent (cluster : Cluster) (scope : Scope)
    (generateCommand : Int → List String) : List ShellCommand :=
  (cluster.ContentIDs.filter
      (fun content => !(content == -1 && scopeExcludesCoordinator scope))).map
    (fun content => NewShellCommand scope content ("") (generateCommand content))

/-- The per-host branch of GenerateCommandList (cluster.go lines 285-297):
iterate hostnames in first-seen order, skip hosts per hostIsSkipped, and
build a ShellCommand with the host as identity and content at the -2
sentinel. -/
def generateCommandListHost (cluster : Cluster) (scope : Scope)
    (generateCommand : String → List String) : List ShellCommand :=
  (cluster.Hostnames.filter (fun host => !hostIsSkipped cluster scope host)).map
    (fun host => NewShellCommand scope (-2) host (generateCommand host))

/-- Embeds GenerateCommandList (cluster.go lines 275-302): dispatch on the
generator shape; a value of neither accepted shape hits the default branch,
which calls gplog.Fatal and terminates. -/
def GenerateCommandList (cluster : Cluster) (scope : Scope) :
    Generator → GenResult
  | .perContent f => .ok (generateCommandListContent cluster scope f)
  | .perHost f => .ok (generateCommandListHost cluster scope f)
  | .invalid => .fatal

/-- Embeds ConstructSSHCommand (cluster.go lines 304-311); the current user
looked up from the operating system is passed in as a parameter. -/
def ConstructSSHCommand (useLocal : Bool) (user : String) (host : String)
    (cmd : String) : List String :=
  if useLocal then ["bash", "-c", cmd]
  else ["ssh", "-o", "StrictHostKeyChecking=no", user ++ "@" ++ host, cmd]

/-- The generator argument of GenerateSSHCommandList: a type switch with
cases for func(int) string and func(string) string and, in the source, no
default case at all. -/
inductive SSHGenerator where
  | perContent (f : Int → String)
  | perHost (f : String → String)
  | invalid

/-- Embeds GenerateSSHCommandList (cluster.go lines 317-335): wraps each
generated command string via ConstructSSHCommand and feeds the wrapped
generator to the matching branch of GenerateCommandList.  The switch has no
default case, so a generator of neither shape leaves the command list at its
nil zero value, which is returned without any fatal error. -/
def GenerateSSHCommandList (cluster : Cluster) (scope : Scope) (user : String) :
    SSHGenerator → GenResult
  | .perContent f =>
      let localHost := GetHostForContent cluster (-1) []
      .ok (generateCommandListContent cluster scope (fun content =>
        let useLocal :=
          GetHostForContent cluster content [] == localHost || scopeIsLocal scope
        ConstructSSHCommand useLocal user (GetHostForContent cluster content [])
          (f content)))
  | .perHost f =>
      let localHost := GetHostForContent cluster (-1) []
      .ok (generateCommandListHost cluster scope (fun host =>
        let useLocal := host == localHost || scopeIsLocal scope
        ConstructSSHCommand useLocal user host (f host)))
  | .invalid => .ok []

/-
  The parallel executor.  Each command is run by its own goroutine; every
  goroutine writes only its own slot of the shared command list and signals
  completion on a channel drained once per goroutine, so the final list is
  determined index-wise by the per-command retry loop.  The external process
  invocation is abstracted by an oracle mapping the (1-based) attempt number
  to the attempt's captured stdout, captured stderr, and error.
-/

/-- The observable outcome of one attempt of one command: captured stdout,
captured stderr, and the error (none on success). -/
structure AttemptOutcome where
  stdout : String
  stderr : String
  err    : Option String
deriving Repr

/-- The mutable state of one goroutine of ExecuteClusterCommandWithRetries
(cluster.go lines 373-401): the out and stderr buffers, the running err,
the accumulated retry error, plus ghost counters for the number of attempts
actually executed and the number of retry sleeps taken. -/
@[ext]
structure ExecState where
  stdout       : String
  stderr       : String
  error        : Option String
  retryError   : List String
  attemptsMade : Nat
  sleeps       : Nat
deriving Repr

/-- The wrapped attempt error appended to the retry error on each failed
attempt (cluster.go line 388): attempt number, underlying error, and the
stderr text captured during that attempt. -/
def wrapAttemptError (attempt : Nat) (o : AttemptOutcome) : String :=
  "attempt " ++ toString attempt ++ ": error was " ++ o.err.getD ("") ++ ": "
    ++ o.stderr

/-- Embeds the retry loop of ExecuteClusterCommandWithRetries (cluster.go
lines 380-394): run attempts while attempt ≤ maxAttempts; on success break
out of the loop at once; on failure append the wrapped attempt error and,
unless this was the last attempt, sleep once before retrying. -/
def retryLoop (oracle : Nat → AttemptOutcome) (maxAttempts : Nat)
    (attempt : Nat) (st : ExecState) : ExecState :=
  if attempt ≤ maxAttempts then
    let o := oracle attempt
    match o.err with
    | none =>
        { st with
          stdout := o.stdout
          stderr := o.stderr
          error := none
          attemptsMade := st.attemptsMade + 1 }
    | some e =>
        retryLoop oracle maxAttempts (attempt + 1)
          { stdout := o.stdout
            stderr := o.stderr
            error := some e
            retryError := st.retryError ++ [wrapAttemptError attempt o]
            attemptsMade := st.attemptsMade + 1
            sleeps := if attempt ≠ maxAttempts then st.sleeps + 1 else st.sleeps }
  else st
termination_by maxAttempts + 1 - attempt
decreasing_by omega

/-- Runs the full retry loop for one command, starting from the command's
own (normally empty) retry error, attempt number 1, and empty buffers. -/
def runShellCommand (oracle : Nat → AttemptOutcome) (maxAttempts : Nat)
    (c : ShellCommand) : ExecState :=
  retryLoop oracle maxAttempts 1
    { stdout := ""
      stderr := ""
      error := none
      retryError := c.RetryError
      attemptsMade := 0
      sleeps := 0 }

/-- The writeback after the retry loop (cluster.go lines 395-399): final
stdout, stderr, terminal error, accumulated retry error, completion flag. -/
def finishShellCommand (c : ShellCommand) (st : ExecState) : ShellCommand :=
  { c with
    Stdout := st.stdout
    Stderr := st.stderr
    Error := st.error
    RetryError := st.retryError
    Completed := true }

/-- The index-wise result of all goroutines: slot i of the command list is
overwritten with the finished form of command i run against runner i. -/
def executeFrom (runner : Nat → Nat → AttemptOutcome) (maxAttempts : Nat) :
    Nat → List ShellCommand → List ShellCommand
  | _, [] => []
  | i, c :: rest =>
      finishShellCommand c (runShellCommand (runner i) maxAttempts c)
        :: executeFrom runner maxAttempts (i + 1) rest

/-- Embeds ExecuteClusterCommandWithRetries (cluster.go lines 368-410): run
every command (concurrently in the source; the join-all rendezvous makes the
final list index-wise deterministic), count the commands whose terminal
error is non-nil, and build the RemoteOutput.  runner i k is the outcome of
attempt k of command i. -/
def ExecuteClusterCommandWithRetries (scope : Scope)
    (commandList : List ShellCommand) (runner : Nat → Nat → AttemptOutcome)
    (maxAttempts : Nat) : RemoteOutput :=
  let done := executeFrom runner maxAttempts 0 commandList
  NewRemoteOutput scope (done.filter (fun c => c.Error.isSome)).length done

/-- Embeds ExecuteClusterCommand (cluster.go lines 356-358): the
single-attempt convenience form. -/
def ExecuteClusterCommand (scope : Scope) (commandList : List ShellCommand)
    (runner : Nat → Nat → AttemptOutcome) : RemoteOutput :=
  ExecuteClusterCommandWithRetries scope commandList runner 1

/-
  Parsing of the gpsegconfig_dump topology file
  (GetSegmentConfigurationFromFile, cluster.go lines 688-764).  The file
  system access is external; the scanner loop over the lines of the file is
  embedded over the list of lines.
-/

/-- Helper for stringFields: walks the characters accumulating the current
field (in reverse); whitespace closes the current field, if any. -/
def fieldsAux : List Char → List Char → List String
  | [], acc => if acc.isEmpty then [] else [String.mk acc.reverse]
  | c :: cs, acc =>
      if c.isWhitespace then
        if acc.isEmpty then fieldsAux cs []
        else String.mk acc.reverse :: fieldsAux cs []
      else fieldsAux cs (c :: acc)

/-- Embeds strings.Fields: split the line around each run of one or more
whitespace characters, producing no empty fields. -/
def stringFields (s : String) : List String := fieldsAux s.data []

/-- Embeds strconv.Atoi as used on the dbID, content, and port fields: an
optional sign followed by a non-empty run of decimal digits; anything else
fails. -/
def atoi (s : String) : Option Int :=
  match s.data with
  | [] => none
  | c :: cs =>
      let signed : Bool × List Char :=
        if c == '-' then (true, cs)
        else if c == '+' then (false, cs) else (false, c :: cs)
      match signed with
      | (neg, ds) =>
        if ds.isEmpty then none
        else if ds.all (fun d => d.isDigit) then
          let n : Nat := ds.foldl (fun acc d => acc * 10 + (d.toNat - 48)) 0
          some (if neg then -(n : Int) else (n : Int))
        else none

/-- Embeds the body of the scanner loop of GetSegmentConfigurationFromFile
(cluster.go lines 709-756): split the line into fields, reject any field
count other than 9 or 10, convert dbID, content, and port with Atoi
(each failure yielding a descriptive error), take the data directory from
field 10 when present and leave it empty otherwise. -/
def parseSegConfigLine (line : String) : Except String SegConfig :=
  let fields := stringFields line
  let parts := fields.length
  if parts ≠ 9 && parts ≠ 10 then
    .error ("Unexpected number of fields (" ++ toString parts ++ ") in line: "
      ++ line)
  else
    match atoi (fields.getD 0 ("")) with
    | none => .error ("Failed to convert dbID with value " ++ fields.getD 0 ("")
        ++ " to an int.")
    | some dbID =>
      match atoi (fields.getD 1 ("")) with
      | none => .error ("Failed to convert content with value "
          ++ fields.getD 1 ("") ++ " to an int.")
      | some content =>
        match atoi (fields.getD 6 ("")) with
        | none => .error ("Failed to convert port with value "
            ++ fields.getD 6 ("") ++ " to an int.")
        | some port =>
          .ok { DbID := dbID
                ContentID := content
                Role := fields.getD 2 ("")
                PreferredRole := fields.getD 3 ("")
                Mode := fields.getD 4 ("")
                Status := fields.getD 5 ("")
                Port := port
                Hostname := fields.getD 7 ("")
                Address := fields.getD 8 ("")
                DataDir := if parts == 10 then fields.getD 9 ("") else "" }

/-- Embeds the scanner loop of GetSegmentConfigurationFromFile over the
lines of the dump file: lines are parsed in order and the first parse error
aborts the whole call with that error and no records. -/
def GetSegmentConfigurationFromLines : List String → Except String (List SegConfig)
  | [] => .ok []
  | line :: rest =>
      match parseSegConfigLine line with
      | .error e => .error e
      | .ok seg =>
          match GetSegmentConfigurationFromLines rest with
          | .error e => .error e
          | .ok segs => .ok (seg :: segs)

/-
  Concrete fixtures used by witnesses and counterexamples.
-/

/-- The coordinator node of the three-node scenario cluster. -/
def coordSeg : SegConfig :=
  { DbID := 1, ContentID := -1, Role := "p", PreferredRole := "p", Mode := "n"
    Status := "u", Port := 6000, Hostname := "coord", Address := "coord"
    DataDir := "/data/coord" }

/-- The standby-coordinator node of the three-node scenario cluster. -/
def standbySeg : SegConfig :=
  { DbID := 2, ContentID := -1, Role := "m", PreferredRole := "m", Mode := "n"
    Status := "u", Port := 6001, Hostname := "standby", Address := "standby"
    DataDir := "/data/standby" }

/-- The single data node of the three-node scenario cluster. -/
def seg1Seg : SegConfig :=
  { DbID := 3, ContentID := 0, Role := "p", PreferredRole := "p", Mode := "n"
    Status := "u", Port := 6002, Hostname := "seg1", Address := "seg1"
    DataDir := "/data/seg1" }

/-- The three-node scenario cluster of the specification. -/
def scenarioCluster : Cluster := NewCluster [coordSeg, standbySeg, seg1Seg]

/-- First mirror record of the three-records-at-one-content fixture. -/
def mirrorSegA : SegConfig :=
  { DbID := 10, ContentID := 0, Role := "m", PreferredRole := "m", Mode := "n"
    Status := "u", Port := 7000, Hostname := "hostA", Address := "hostA"
    DataDir := "/data/a" }

/-- Second mirror record of the three-records-at-one-content fixture. -/
def mirrorSegB : SegConfig :=
  { DbID := 11, ContentID := 0, Role := "m", PreferredRole := "m", Mode := "n"
    Status := "u", Port := 7001, Hostname := "hostB", Address := "hostB"
    DataDir := "/data/b" }

/-- Primary record of the three-records-at-one-content fixture. -/
def primarySegC : SegConfig :=
  { DbID := 12, ContentID := 0, Role := "p", PreferredRole := "p", Mode := "n"
    Status := "u", Port := 7002, Hostname := "hostC", Address := "hostC"
    DataDir := "/data/c" }

/-- A freshly generated command for the executor fixtures. -/
def retryCommandFixture : ShellCommand := NewShellCommand 0 0 ("") ["ls"]

/-- An attempt oracle that fails on attempt 1 and succeeds afterwards. -/
def failThenSucceedRunner : Nat → Nat → AttemptOutcome :=
  fun _ attempt =>
    if attempt == 1 then
      { stdout := "", stderr := "boom", err := some ("exit status 1") }
    else { stdout := "ok", stderr := "", err := none }

/-- An attempt oracle that fails on every attempt. -/
def alwaysFailRunner : Nat → Nat → AttemptOutcome :=
  fun _ _ => { stdout := "", stderr := "boom", err := some ("exit status 1") }

/-- A completed command that failed terminally. -/
def failedFixtureCommand : ShellCommand :=
  { NewShellCommand 0 0 ("") ["ls"] with
    Error := some ("exit status 1")
    RetryError := ["attempt 1: error was exit status 1: boom"]
    Completed := true }

/-- A completed command that succeeded after one retry. -/
def retriedFixtureCommand : ShellCommand :=
  { NewShellCommand 0 1 ("") ["ls"] with
    Error := none
    RetryError := ["attempt 1: error was exit status 1: boom"]
    Completed := true }

/-
  Helper lemmas.
-/

/-- getSegmentByRole on an empty segment list yields none for every role. -/
theorem getSegmentByRole_nil (role : List String) :
    getSegmentByRole [] role = none := by
  unfold getSegmentByRole
  split <;> rfl

/-- getSegmentByRole on a one-element list with the mirror selector yields
none. -/
theorem getSegmentByRole_single_mirror (s : SegConfig) :
    getSegmentByRole [s] ["m"] = none := rfl

/-- getSegmentByRole on a one-element list with the default selector yields
that element. -/
theorem getSegmentByRole_single_default (s : SegConfig) :
    getSegmentByRole [s] [] = some s := rfl

/-- Unrolling the classification fold of NewRemoteOutput: the failed side
accumulates the commands with a terminal error and the retried side the
commands with no terminal error but a non-empty retry error. -/
theorem foldl_classifyStep (commands : List ShellCommand)
    (f r : List ShellCommand) :
    commands.foldl classifyStep (f, r)
      = (f ++ commands.filter (fun c => c.Error.isSome),
         r ++ commands.filter (fun c => c.Error.isNone && !c.RetryError.isEmpty)) := by
  induction commands generalizing f r with
  | nil => simp
  | cons c rest ih =>
      by_cases herr : c.Error.isSome
      · have hnone : c.Error.isNone = false := by
          cases h : c.Error <;> simp_all
        simp [classifyStep, herr, hnone, ih, List.filter_cons]
      · have hnone : c.Error.isNone = true := by
          cases h : c.Error <;> simp_all
        by_cases hretry : c.RetryError.isEmpty
        · simp [classifyStep, herr, hnone, hretry, ih, List.filter_cons]
        · simp [classifyStep, herr, hnone, hretry, ih, List.filter_cons]

/-- The hosts of a per-host command list are exactly the non-skipped
hostnames, in first-seen order. -/
theorem map_host_generateCommandListHost (cluster : Cluster) (scope : Scope)
    (f : String → List String) :
    (generateCommandListHost cluster scope f).map (fun c => c.Host)
      = cluster.Hostnames.filter (fun h => !hostIsSkipped cluster scope h) := by
  unfold generateCommandListHost
  rw [List.map_map]
  generalize cluster.Hostnames.filter (fun h => !hostIsSkipped cluster scope h) = l
  induction l with
  | nil => rfl
  | cons a t ih => simp only [List.map_cons, ih]; rfl

/-- The content ids of a per-content command list are exactly the retained
content ids, in the order of ContentIDs. -/
theorem map_content_generateCommandListContent (cluster : Cluster)
    (scope : Scope) (f : Int → List String) :
    (generateCommandListContent cluster scope f).map (fun c => c.Content)
      = cluster.ContentIDs.filter
          (fun content => !(content == -1 && scopeExcludesCoordinator scope)) := by
  unfold generateCommandListContent
  rw [List.map_map]
  generalize cluster.ContentIDs.filter
    (fun content => !(content == -1 && scopeExcludesCoordinator scope)) = l
  induction l with
  | nil => rfl
  | cons a t ih => simp only [List.map_cons, ih]; rfl

/-- The ContentIDs field of NewCluster, spelled out. -/
theorem contentIDs_newCluster (segConfigs : List SegConfig) :
    (NewCluster segConfigs).ContentIDs
      = List.insertionSort (fun a b => a ≤ b)
          (segConfigs.map (fun s => s.ContentID)).dedup := rfl

/-- The ContentIDs list built by NewCluster is strictly ascending. -/
theorem contentIDs_pairwise_lt (segConfigs : List SegConfig) :
    (NewCluster segConfigs).ContentIDs.Pairwise (fun a b => a < b) := by
  rw [contentIDs_newCluster]
  have hsorted : List.Pairwise (fun a b => a ≤ b)
      (List.insertionSort (fun a b => a ≤ b)
        (segConfigs.map (fun s => s.ContentID)).dedup) :=
    List.sorted_insertionSort (fun a b => a ≤ b) _
  have hnodup : (List.insertionSort (fun a b => a ≤ b)
      (segConfigs.map (fun s => s.ContentID)).dedup).Nodup := by
    have hperm := List.perm_insertionSort (fun a b => a ≤ b)
      (segConfigs.map (fun s => s.ContentID)).dedup
    exact hperm.nodup_iff.mpr (List.nodup_dedup _)
  exact (hsorted.and hnodup).imp (fun hab => lt_of_le_of_ne hab.1 hab.2)

/-- A host skipped by the per-host loop always carries exactly one logical
position. -/
theorem hostIsSkipped_one_content (cluster : Cluster) (scope : Scope)
    (host : String) (hskip : hostIsSkipped cluster scope host = true) :
    (GetContentsForHost cluster host).length = 1 := by
  cases h : ((GetContentsForHost cluster host).length == 1) with
  | true => exact beq_iff_eq.mp h
  | false => simp [hostIsSkipped, h] at hskip

/-- normalizePair never changes the length of the list. -/
theorem normalizePair_length (l : List SegConfig) :
    (normalizePair l).length = l.length := by
  rcases l with _ | ⟨a, _ | ⟨b, _ | ⟨c, t⟩⟩⟩
  · rfl
  · rfl
  · simp only [normalizePair]
    split <;> rfl
  · rfl

/-- The ByContent map after the construction fold, at any key, is the fold
of the per-content insertion step over the input records carrying that key. -/
theorem byContent_foldl (segConfigs : List SegConfig) (st : BuildState)
    (c : Int) :
    (segConfigs.foldl addSegment st).byContent c
      = (segConfigs.filter (fun s => s.ContentID == c)).foldl
          (fun l s => normalizePair (l ++ [s])) (st.byContent c) := by
  induction segConfigs generalizing st with
  | nil => rfl
  | cons s rest ih =>
      rw [List.foldl_cons, ih]
      cases h : (s.ContentID == c) with
      | true =>
          have hc : s.ContentID = c := beq_iff_eq.mp h
          have h2 : (addSegment st s).byContent c
              = normalizePair (st.byContent c ++ [s]) := by
            simp only [addSegment, hc, beq_self_eq_true, if_true]
          rw [h2, List.filter_cons, if_pos h, List.foldl_cons]
      | false =>
          have h2 : (addSegment st s).byContent c = st.byContent c := by
            simp only [addSegment]
            rw [if_neg]
            intro habs
            rw [beq_iff_eq.mp habs] at h
            simp at h
          rw [h2, List.filter_cons, if_neg (by simp [h])]

/-- The ByContent map of NewCluster at any key is the normalizing fold over
the records at that content id. -/
theorem byContent_newCluster (segConfigs : List SegConfig) (c : Int) :
    (NewCluster segConfigs).ByContent c
      = (segConfigs.filter (fun s => s.ContentID == c)).foldl
          (fun l s => normalizePair (l ++ [s])) [] :=
  byContent_foldl segConfigs emptyBuildState c

/-- Each normalizing insertion grows the list by one, so the fold's length
is the number of records inserted. -/
theorem foldl_normalizePair_length (fl : List SegConfig)
    (init : List SegConfig) :
    (fl.foldl (fun l s => normalizePair (l ++ [s])) init).length
      = init.length + fl.length := by
  induction fl generalizing init with
  | nil => rfl
  | cons s rest ih =>
      rw [List.foldl_cons, ih, normalizePair_length]
      simp
      omega

/-- The retry loop when every attempt from the current one up to and
excluding attempt N fails and attempt N succeeds: the final state carries
attempt N's output, no terminal error, one wrapped retry error per failed
attempt, one executed attempt per iteration, and one sleep per failed
attempt. -/
theorem retryLoop_success (oracle : Nat → AttemptOutcome) (N : Nat) :
    ∀ (d attempt : Nat) (st : ExecState), N - attempt = d → attempt ≤ N →
    (∀ k, attempt ≤ k → k < N → (oracle k).err ≠ none) →
    (oracle N).err = none →
    retryLoop oracle N attempt st =
      { stdout := (oracle N).stdout
        stderr := (oracle N).stderr
        error := none
        retryError := st.retryError
          ++ (List.range' attempt (N - attempt)).map
              (fun k => wrapAttemptError k (oracle k))
        attemptsMade := st.attemptsMade + (N - attempt) + 1
        sleeps := st.sleeps + (N - attempt) } := by
  intro d
  induction d with
  | zero =>
      intro attempt st hd hle hfail hsucc
      have ha : attempt = N := by omega
      subst ha
      rw [retryLoop, if_pos hle]
      simp only [hsucc]
      ext <;> simp [Nat.sub_self]
  | succ d ih =>
      intro attempt st hd hle hfail hsucc
      have hlt : attempt < N := by omega
      have hne := hfail attempt (le_refl attempt) hlt
      cases ho : (oracle attempt).err with
      | none => exact absurd ho hne
      | some e =>
          rw [retryLoop, if_pos hle]
          simp only [ho]
          rw [ih (attempt + 1)
            { stdout := (oracle attempt).stdout
              stderr := (oracle attempt).stderr
              error := some e
              retryError := st.retryError
                ++ [wrapAttemptError attempt (oracle attempt)]
              attemptsMade := st.attemptsMade + 1
              sleeps := if attempt ≠ N then st.sleeps + 1 else st.sleeps }
            (by omega) (by omega)
            (fun k h1 h2 => hfail k (by omega) h2) hsucc]
          have hrange : N - attempt = (N - (attempt + 1)) + 1 := by omega
          ext
          · rfl
          · rfl
          · rfl
          · simp only [ExecState.retryError]
            rw [hrange, List.range'_succ attempt (N - (attempt + 1)) 1,
              List.map_cons, List.append_assoc, List.singleton_append]
          · simp only [ExecState.attemptsMade]
            omega
          · simp only [ExecState.sleeps]
            rw [if_pos (by omega : attempt ≠ N)]
            omega

/-- The retry loop when every attempt from the current one through attempt
N fails: the final state carries attempt N's output and error, one wrapped
retry error and one executed attempt per iteration, and one sleep per
failed attempt except the last. -/
theorem retryLoop_all_fail (oracle : Nat → AttemptOutcome) (N : Nat) :
    ∀ (d attempt : Nat) (st : ExecState), N - attempt = d → attempt ≤ N →
    (∀ k, attempt ≤ k → k ≤ N → (oracle k).err ≠ none) →
    retryLoop oracle N attempt st =
      { stdout := (oracle N).stdout
        stderr := (oracle N).stderr
        error := (oracle N).err
        retryError := st.retryError
          ++ (List.range' attempt (N + 1 - attempt)).map
              (fun k => wrapAttemptError k (oracle k))
        attemptsMade := st.attemptsMade + (N + 1 - attempt)
        sleeps := st.sleeps + (N - attempt) } := by
  intro d
  induction d with
  | zero =>
      intro attempt st hd hle hfail
      have ha : attempt = N := by omega
      subst ha
      have hne := hfail attempt (le_refl attempt) (le_refl attempt)
      cases ho : (oracle attempt).err with
      | none => exact absurd ho hne
      | some e =>
          rw [retryLoop, if_pos hle]
          simp only [ho]
          rw [retryLoop, if_neg (by omega : ¬(attempt + 1 ≤ attempt))]
          have hrange : attempt + 1 - attempt = 1 := by omega
          ext
          · rfl
          · rfl
          · simp [ho]
          · simp only [ExecState.retryError]
            rw [hrange]
            simp
          · simp only [ExecState.attemptsMade]
            omega
          · simp only [ExecState.sleeps]
            rw [if_neg (by omega : ¬attempt ≠ attempt)]
            omega
  | succ d ih =>
      intro attempt st hd hle hfail
      have hlt : attempt < N := by omega
      have hne := hfail attempt (le_refl attempt) (by omega)
      cases ho : (oracle attempt).err with
      | none => exact absurd ho hne
      | some e =>
          rw [retryLoop, if_pos hle]
          simp only [ho]
          rw [ih (attempt + 1)
            { stdout := (oracle attempt).stdout
              stderr := (oracle attempt).stderr
              error := some e
              retryError := st.retryError
                ++ [wrapAttemptError attempt (oracle attempt)]
              attemptsMade := st.attemptsMade + 1
              sleeps := if attempt ≠ N then st.sleeps + 1 else st.sleeps }
            (by omega) (by omega)
            (fun k h1 h2 => hfail k (by omega) h2)]
          have hrange : N + 1 - attempt = (N + 1 - (attempt + 1)) + 1 := by omega
          ext
          · rfl
          · rfl
          · rfl
          · simp only [ExecState.retryError]
            rw [hrange, List.range'_succ attempt (N + 1 - (attempt + 1)) 1,
              List.map_cons, List.append_assoc, List.singleton_append]
          · simp only [ExecState.attemptsMade]
            omega
          · simp only [ExecState.sleeps]
            rw [if_pos (by omega : attempt ≠ N)]
            omega

/-- Slot j of the executor's result list is the finished form of input
command j run against its own runner. -/
theorem executeFrom_get (runner : Nat → Nat → AttemptOutcome)
    (maxAttempts : Nat) :
    ∀ (l : List ShellCommand) (i j : Nat),
    (executeFrom runner maxAttempts i l).get? j
      = (l.get? j).map
          (fun c => finishShellCommand c
            (runShellCommand (runner (i + j)) maxAttempts c)) := by
  intro l
  induction l with
  | nil => intro i j; rfl
  | cons c rest ih =>
      intro i j
      cases j with
      | zero => rfl
      | succ j =>
          simp only [executeFrom, List.get?_cons_succ, ih (i + 1) j]
          have : i + 1 + j = i + (j + 1) := by omega
          rw [this]

/-
  Claim theorems.
-/

/-- C1 (amended): on the three-node scenario cluster, per-host generation
under scope per-host + exclude-coordinator produces host list exactly
["seg1"]; under per-host + include-coordinator it produces ["coord",
"seg1"], the standby host staying excluded by the default exclude-mirrors
axis; only adding include-mirrors as well yields ["coord", "standby",
"seg1"].  In general a host is skipped only when it carries exactly one
logical position. -/
theorem claim_C1_host_level_generation :
    (∀ (f : String → List String) (cmds : List ShellCommand),
        GenerateCommandList scenarioCluster ON_HOSTS (.perHost f) = .ok cmds →
        cmds.map (fun c => c.Host) = ["seg1"])
    ∧ (∀ (f : String → List String) (cmds : List ShellCommand),
        GenerateCommandList scenarioCluster (ON_HOSTS ||| INCLUDE_COORDINATOR)
            (.perHost f) = .ok cmds →
        cmds.map (fun c => c.Host) = ["coord", "seg1"])
    ∧ (∀ (f : String → List String) (cmds : List ShellCommand),
        GenerateCommandList scenarioCluster
            (ON_HOSTS ||| INCLUDE_COORDINATOR ||| INCLUDE_MIRRORS)
            (.perHost f) = .ok cmds →
        cmds.map (fun c => c.Host) = ["coord", "standby", "seg1"])
    ∧ (∀ (cluster : Cluster) (scope : Scope) (f : String → List String)
          (cmds : List ShellCommand) (host : String),
        GenerateCommandList cluster scope (.perHost f) = .ok cmds →
        host ∈ cluster.Hostnames →
        host ∉ cmds.map (fun c => c.Host) →
        (GetContentsForHost cluster host).length = 1) := by
  refine ⟨?_, ?_, ?_, ?_⟩
  · intro f cmds h
    simp only [GenerateCommandList, GenResult.ok.injEq] at h
    subst h
    rw [map_host_generateCommandListHost]
    rfl
  · intro f cmds h
    simp only [GenerateCommandList, GenResult.ok.injEq] at h
    subst h
    rw [map_host_generateCommandListHost]
    rfl
  · intro f cmds h
    simp only [GenerateCommandList, GenResult.ok.injEq] at h
    subst h
    rw [map_host_generateCommandListHost]
    rfl
  · intro cluster scope f cmds host h hmem hnotin
    simp only [GenerateCommandList, GenResult.ok.injEq] at h
    subst h
    rw [map_host_generateCommandListHost] at hnotin
    have hskip : hostIsSkipped cluster scope host = true := by
      by_contra hns
      exact hnotin (List.mem_filter.mpr ⟨hmem, by simp_all⟩)
    exact hostIsSkipped_one_content cluster scope host hskip

/-- C1 counterexample: under scope per-host + include-coordinator (other
axes at default) the scenario cluster's generated host list is
["coord", "seg1"], not the claimed ["coord", "standby", "seg1"]. -/
theorem counterexample_C1_standby_excluded :
    GenerateCommandList scenarioCluster (ON_HOSTS ||| INCLUDE_COORDINATOR)
        (.perHost (fun h => ["echo", h]))
      = .ok (generateCommandListHost scenarioCluster
          (ON_HOSTS ||| INCLUDE_COORDINATOR) (fun h => ["echo", h]))
    ∧ (generateCommandListHost scenarioCluster (ON_HOSTS ||| INCLUDE_COORDINATOR)
          (fun h => ["echo", h])).map (fun c => c.Host) = ["coord", "seg1"]
    ∧ (["coord", "seg1"] : List String) ≠ ["coord", "standby", "seg1"] :=
  ⟨rfl, by rfl, by decide⟩

/-- C1 witness: the exclude-coordinator half of the scenario and the general
only-single-position rule, evaluated for the standby host that was skipped
under scope per-host + exclude-coordinator. -/
theorem claim_C1_host_level_generation_witness :
    (generateCommandListHost scenarioCluster ON_HOSTS
        (fun h => ["echo", h])).map (fun c => c.Host) = ["seg1"]
    ∧ (GetContentsForHost scenarioCluster ("standby")).length = 1 :=
  ⟨claim_C1_host_level_generation.1 (fun h => ["echo", h]) _ rfl,
   claim_C1_host_level_generation.2.2.2 scenarioCluster ON_HOSTS
     (fun h => ["echo", h]) _ ("standby") rfl (by decide) (by decide)⟩

/-- C5: for every cluster and coordinator-excluding scope, per-content
generation produces no command with content id -1, the produced commands
follow the strictly ascending order of the distinct content ids, and every
produced command has its Host field at the empty-string sentinel. -/
theorem claim_C5_content_level_generation (segConfigs : List SegConfig)
    (scope : Scope) (f : Int → List String) (cmds : List ShellCommand)
    (hexcl : scopeExcludesCoordinator scope = true)
    (h : GenerateCommandList (NewCluster segConfigs) scope (.perContent f)
      = .ok cmds) :
    (∀ c ∈ cmds, c.Content ≠ -1)
    ∧ (cmds.map (fun c => c.Content)).Pairwise (fun a b => a < b)
    ∧ (∀ c ∈ cmds, c.Host = "") := by
  simp only [GenerateCommandList, GenResult.ok.injEq] at h
  subst h
  refine ⟨?_, ?_, ?_⟩
  · intro c hc
    simp only [generateCommandListContent, List.mem_map] at hc
    obtain ⟨content, hmem, rfl⟩ := hc
    have hpred := List.of_mem_filter hmem
    simp only [hexcl, Bool.and_true, Bool.not_eq_eq_eq_not, Bool.not_true,
      beq_eq_false_iff_ne, ne_eq] at hpred
    simpa [NewShellCommand] using hpred
  · rw [map_content_generateCommandListContent]
    exact (contentIDs_pairwise_lt segConfigs).filter _
  · intro c hc
    simp only [generateCommandListContent, List.mem_map] at hc
    obtain ⟨content, _, rfl⟩ := hc
    rfl

/-- C5 witness: per-content generation on the scenario cluster under the
all-defaults scope. -/
theorem claim_C5_content_level_generation_witness :
    (∀ c ∈ generateCommandListContent scenarioCluster ON_SEGMENTS
        (fun _ => ["ls"]), c.Content ≠ -1)
    ∧ ((generateCommandListContent scenarioCluster ON_SEGMENTS
        (fun _ => ["ls"])).map (fun c => c.Content)).Pairwise (fun a b => a < b)
    ∧ (∀ c ∈ generateCommandListContent scenarioCluster ON_SEGMENTS
        (fun _ => ["ls"]), c.Host = "") :=
  claim_C5_content_level_generation [coordSeg, standbySeg, seg1Seg] ON_SEGMENTS
    (fun _ => ["ls"]) _ rfl rfl

/-- C9: for every scope, error count, and completed command list, the
RemoteOutput built by NewRemoteOutput has FailedCommands equal to exactly
the commands with a non-nil terminal Error and RetriedCommands equal to
exactly the commands with a nil terminal Error but a non-nil RetryError, so
no command appears in both subsets. -/
theorem claim_C9_remote_output_partition (scope : Scope) (numErrors : Nat)
    (commands : List ShellCommand) :
    (NewRemoteOutput scope numErrors commands).FailedCommands
        = commands.filter (fun c => c.Error.isSome)
      ∧ (NewRemoteOutput scope numErrors commands).RetriedCommands
        = commands.filter (fun c => c.Error.isNone && !c.RetryError.isEmpty)
      ∧ ∀ c, c ∈ (NewRemoteOutput scope numErrors commands).FailedCommands →
          c ∉ (NewRemoteOutput scope numErrors commands).RetriedCommands := by
  have hfold := foldl_classifyStep commands [] []
  refine ⟨?_, ?_, ?_⟩
  · simp [NewRemoteOutput, hfold]
  · simp [NewRemoteOutput, hfold]
  · intro c hc hcr
    simp only [NewRemoteOutput, hfold, List.nil_append] at hc hcr
    have h1 := List.of_mem_filter hc
    have h2 := List.of_mem_filter hcr
    simp only [Bool.and_eq_true, Option.isNone_iff_eq_none] at h2
    rw [h2.1] at h1
    simp at h1

/-- C9 witness: the partition at a concrete two-command list where the
first command failed terminally and the second succeeded after retries. -/
theorem claim_C9_remote_output_partition_witness :
    (NewRemoteOutput 0 1 [failedFixtureCommand, retriedFixtureCommand]).FailedCommands
        = [failedFixtureCommand, retriedFixtureCommand].filter (fun c => c.Error.isSome)
      ∧ (NewRemoteOutput 0 1 [failedFixtureCommand, retriedFixtureCommand]).RetriedCommands
        = [failedFixtureCommand, retriedFixtureCommand].filter
            (fun c => c.Error.isNone && !c.RetryError.isEmpty)
      ∧ ∀ c, c ∈ (NewRemoteOutput 0 1
            [failedFixtureCommand, retriedFixtureCommand]).FailedCommands →
          c ∉ (NewRemoteOutput 0 1
            [failedFixtureCommand, retriedFixtureCommand]).RetriedCommands :=
  claim_C9_remote_output_partition 0 1 [failedFixtureCommand, retriedFixtureCommand]

/-- C10: for every cluster and content id, an absent content id makes every
getter return its absent sentinel for any role; a content id with exactly
one record makes the mirror request return the absent sentinel while the
default request returns that record's values, whatever its role. -/
theorem claim_C10_content_getters (cluster : Cluster) (contentID : Int) :
    (cluster.ByContent contentID = [] →
      ∀ role : List String,
        GetDbidForContent cluster contentID role = -1
        ∧ GetPortForContent cluster contentID role = -1
        ∧ GetHostForContent cluster contentID role = ""
        ∧ GetDirForContent cluster contentID role = "")
    ∧ (∀ s : SegConfig, cluster.ByContent contentID = [s] →
        (GetDbidForContent cluster contentID ["m"] = -1
          ∧ GetPortForContent cluster contentID ["m"] = -1
          ∧ GetHostForContent cluster contentID ["m"] = ""
          ∧ GetDirForContent cluster contentID ["m"] = "")
        ∧ (GetDbidForContent cluster contentID [] = s.DbID
          ∧ GetPortForContent cluster contentID [] = s.Port
          ∧ GetHostForContent cluster contentID [] = s.Hostname
          ∧ GetDirForContent cluster contentID [] = s.DataDir)) := by
  constructor
  · intro h role
    simp [GetDbidForContent, GetPortForContent, GetHostForContent,
      GetDirForContent, h, getSegmentByRole_nil]
  · intro s h
    constructor
    · simp [GetDbidForContent, GetPortForContent, GetHostForContent,
        GetDirForContent, h, getSegmentByRole_single_mirror]
    · simp [GetDbidForContent, GetPortForContent, GetHostForContent,
        GetDirForContent, h, getSegmentByRole_single_default]

/-- C10 witness: the getters evaluated on a one-node cluster whose single
record is itself a mirror, at an absent content id and at the record's
content id. -/
theorem claim_C10_content_getters_witness :
    (∀ role : List String,
        GetDbidForContent (NewCluster [standbySeg]) 5 role = -1
        ∧ GetPortForContent (NewCluster [standbySeg]) 5 role = -1
        ∧ GetHostForContent (NewCluster [standbySeg]) 5 role = ""
        ∧ GetDirForContent (NewCluster [standbySeg]) 5 role = "")
    ∧ ((GetDbidForContent (NewCluster [standbySeg]) (-1) ["m"] = -1
          ∧ GetPortForContent (NewCluster [standbySeg]) (-1) ["m"] = -1
          ∧ GetHostForContent (NewCluster [standbySeg]) (-1) ["m"] = ""
          ∧ GetDirForContent (NewCluster [standbySeg]) (-1) ["m"] = "")
        ∧ (GetDbidForContent (NewCluster [standbySeg]) (-1) [] = standbySeg.DbID
          ∧ GetPortForContent (NewCluster [standbySeg]) (-1) [] = standbySeg.Port
          ∧ GetHostForContent (NewCluster [standbySeg]) (-1) [] = standbySeg.Hostname
          ∧ GetDirForContent (NewCluster [standbySeg]) (-1) [] = standbySeg.DataDir)) :=
  ⟨(claim_C10_content_getters (NewCluster [standbySeg]) 5).1 rfl,
   (claim_C10_content_getters (NewCluster [standbySeg]) (-1)).2 standbySeg rfl⟩

/-- C6 counterexample: a generator matching neither accepted shape makes
GenerateSSHCommandList return an ordinary empty command list, not the fatal
failure the claim asserts for both layers. -/
theorem counterexample_C6_ssh_layer_not_fatal :
    GenerateSSHCommandList scenarioCluster ON_HOSTS ("gpadmin")
        SSHGenerator.invalid = GenResult.ok []
      ∧ GenResult.ok ([] : List ShellCommand) ≠ GenResult.fatal :=
  ⟨rfl, by decide⟩

/-- C6 amended: passing a generator matching neither accepted shape to
GenerateCommandList fails fatally and immediately, producing no command
list; GenerateSSHCommandList, whose type switch has no default case,
instead silently returns an empty command list without a fatal failure. -/
theorem claim_C6_invalid_generator (cluster : Cluster) (scope : Scope)
    (user : String) :
    GenerateCommandList cluster scope Generator.invalid = GenResult.fatal
      ∧ GenerateSSHCommandList cluster scope user SSHGenerator.invalid
        = GenResult.ok [] :=
  ⟨rfl, rfl⟩

/-- C7: every command produced by GenerateSSHCommandList is the local
invocation bash -c cmd exactly when the target host equals the coordinator
host or the scope forces local execution, and otherwise the remote
invocation ssh -o StrictHostKeyChecking=no user@host cmd; for the per-host
shape the target host is the command's Host field, for the per-content
shape it is the host of the command's content id. -/
theorem claim_C7_ssh_wrapping (cluster : Cluster) (scope : Scope)
    (user : String) :
    (∀ (f : String → String) (cmds : List ShellCommand),
        GenerateSSHCommandList cluster scope user (.perHost f) = .ok cmds →
        ∀ c ∈ cmds,
          c.Command =
            if c.Host == GetHostForContent cluster (-1) [] || scopeIsLocal scope
            then ["bash", "-c", f c.Host]
            else ["ssh", "-o", "StrictHostKeyChecking=no", user ++ "@" ++ c.Host,
                  f c.Host])
    ∧ (∀ (g : Int → String) (cmds : List ShellCommand),
        GenerateSSHCommandList cluster scope user (.perContent g) = .ok cmds →
        ∀ c ∈ cmds,
          c.Command =
            if GetHostForContent cluster c.Content []
                  == GetHostForContent cluster (-1) [] || scopeIsLocal scope
            then ["bash", "-c", g c.Content]
            else ["ssh", "-o", "StrictHostKeyChecking=no",
                  user ++ "@" ++ GetHostForContent cluster c.Content [],
                  g c.Content]) := by
  constructor
  · intro f cmds h c hc
    simp only [GenerateSSHCommandList, GenResult.ok.injEq] at h
    subst h
    simp only [generateCommandListHost, List.mem_map] at hc
    obtain ⟨host, _, rfl⟩ := hc
    simp [NewShellCommand, ConstructSSHCommand]
  · intro g cmds h c hc
    simp only [GenerateSSHCommandList, GenResult.ok.injEq] at h
    subst h
    simp only [generateCommandListContent, List.mem_map] at hc
    obtain ⟨content, _, rfl⟩ := hc
    simp [NewShellCommand, ConstructSSHCommand]

/-- C7 witness: the wrapping property instantiated on the scenario cluster
with a per-host generator under the per-host remote scope. -/
theorem claim_C7_ssh_wrapping_witness :
    ∀ c ∈ generateCommandListHost scenarioCluster ON_HOSTS (fun host =>
        let useLocal := host == GetHostForContent scenarioCluster (-1) []
          || scopeIsLocal ON_HOSTS
        ConstructSSHCommand useLocal ("gpadmin") host ("hostname")),
      c.Command =
        if c.Host == GetHostForContent scenarioCluster (-1) []
            || scopeIsLocal ON_HOSTS
        then ["bash", "-c", "hostname"]
        else ["ssh", "-o", "StrictHostKeyChecking=no", "gpadmin" ++ "@" ++ c.Host,
              "hostname"] :=
  (claim_C7_ssh_wrapping scenarioCluster ON_HOSTS ("gpadmin")).1
    (fun _ => "hostname") _ rfl

/-- C8: a 10-field dump line (with numeric id, content, and port) parses to
a record whose DataDir is exactly the 10th field; a 9-field line parses to a
record with empty DataDir; any other field count makes the line parse fail;
a non-numeric id, content, or port field makes the line parse fail; and any
failing line makes the whole call return an error. -/
theorem claim_C8_dump_parsing :
    (∀ (line : String) (f : List String), stringFields line = f →
        f.length = 10 →
        (∃ n, atoi (f.getD 0 ("")) = some n) →
        (∃ n, atoi (f.getD 1 ("")) = some n) →
        (∃ n, atoi (f.getD 6 ("")) = some n) →
        ∃ seg, parseSegConfigLine line = .ok seg ∧ seg.DataDir = f.getD 9 (""))
    ∧ (∀ (line : String) (f : List String), stringFields line = f →
        f.length = 9 →
        (∃ n, atoi (f.getD 0 ("")) = some n) →
        (∃ n, atoi (f.getD 1 ("")) = some n) →
        (∃ n, atoi (f.getD 6 ("")) = some n) →
        ∃ seg, parseSegConfigLine line = .ok seg ∧ seg.DataDir = "")
    ∧ (∀ line : String, (stringFields line).length ≠ 9 →
        (stringFields line).length ≠ 10 →
        ∃ e, parseSegConfigLine line = .error e)
    ∧ (∀ line : String,
        ((stringFields line).length = 9 ∨ (stringFields line).length = 10) →
        (atoi ((stringFields line).getD 0 ("")) = none
          ∨ atoi ((stringFields line).getD 1 ("")) = none
          ∨ atoi ((stringFields line).getD 6 ("")) = none) →
        ∃ e, parseSegConfigLine line = .error e)
    ∧ (∀ (lines : List String) (line : String) (e : String),
        line ∈ lines → parseSegConfigLine line = .error e →
        ∃ msg, GetSegmentConfigurationFromLines lines = .error msg) := by
  refine ⟨?_, ?_, ?_, ?_, ?_⟩
  · intro line f hf hlen h0 h1 h6
    obtain ⟨n0, hn0⟩ := h0
    obtain ⟨n1, hn1⟩ := h1
    obtain ⟨n6, hn6⟩ := h6
    simp only [parseSegConfigLine, hf, hlen, hn0, hn1, hn6]
    simp
  · intro line f hf hlen h0 h1 h6
    obtain ⟨n0, hn0⟩ := h0
    obtain ⟨n1, hn1⟩ := h1
    obtain ⟨n6, hn6⟩ := h6
    simp only [parseSegConfigLine, hf, hlen, hn0, hn1, hn6]
    simp
  · intro line h9 h10
    simp only [parseSegConfigLine]
    rw [if_pos]
    · exact ⟨_, rfl⟩
    · simp [h9, h10]
  · intro line hlen hbad
    simp only [parseSegConfigLine]
    rw [if_neg]
    · rcases hbad with hb | hb | hb
      · rw [hb]
        exact ⟨_, rfl⟩
      · cases ha : atoi ((stringFields line).getD 0 ("")) with
        | none => exact ⟨_, rfl⟩
        | some n0 =>
            rw [hb]
            exact ⟨_, rfl⟩
      · cases ha : atoi ((stringFields line).getD 0 ("")) with
        | none => exact ⟨_, rfl⟩
        | some n0 =>
            cases ha1 : atoi ((stringFields line).getD 1 ("")) with
            | none => exact ⟨_, rfl⟩
            | some n1 =>
                rw [hb]
                exact ⟨_, rfl⟩
    · rcases hlen with hl | hl <;> simp [hl]
  · intro lines line e hmem herr
    induction lines with
    | nil => cases hmem
    | cons l rest ih =>
        cases hl : parseSegConfigLine l with
        | error e2 => exact ⟨e2, by simp [GetSegmentConfigurationFromLines, hl]⟩
        | ok seg =>
            have hline : line ∈ rest := by
              rcases List.mem_cons.mp hmem with rfl | hr
              · rw [herr] at hl
                cases hl
              · exact hr
            obtain ⟨msg, hmsg⟩ := ih hline
            exact ⟨msg, by simp [GetSegmentConfigurationFromLines, hl, hmsg]⟩

/-- C8 witness: a concrete 10-field line parses with its data directory, a
concrete 8-field line fails to parse, a concrete non-numeric id fails to
parse, and a failing line fails the whole call. -/
theorem claim_C8_dump_parsing_witness :
    (∃ seg, parseSegConfigLine ("1 -1 p p n u 6000 localhost localhost /data/temp1")
        = .ok seg
      ∧ seg.DataDir = (["1", "-1", "p", "p", "n", "u", "6000", "localhost",
          "localhost", "/data/temp1"] : List String).getD 9 (""))
    ∧ (∃ e, parseSegConfigLine ("1 -1 p p n u 6000 localhost") = .error e)
    ∧ (∃ e, parseSegConfigLine ("x -1 p p n u 6000 localhost localhost") = .error e)
    ∧ (∃ msg, GetSegmentConfigurationFromLines
        ["1 -1 p p n u 6000 localhost localhost /data/temp1",
         "1 -1 p p n u 6000 localhost"] = .error msg) :=
  ⟨claim_C8_dump_parsing.1 ("1 -1 p p n u 6000 localhost localhost /data/temp1")
      (["1", "-1", "p", "p", "n", "u", "6000", "localhost", "localhost",
        "/data/temp1"]) (by rfl) (by rfl) ⟨1, by rfl⟩ ⟨-1, by rfl⟩ ⟨6000, by rfl⟩,
   claim_C8_dump_parsing.2.2.1 ("1 -1 p p n u 6000 localhost")
      (by decide) (by decide),
   claim_C8_dump_parsing.2.2.2.1 ("x -1 p p n u 6000 localhost localhost")
      (by left; rfl) (by left; rfl),
   claim_C8_dump_parsing.2.2.2.2
      ["1 -1 p p n u 6000 localhost localhost /data/temp1",
       "1 -1 p p n u 6000 localhost"]
      ("1 -1 p p n u 6000 localhost")
      ("Unexpected number of fields (8) in line: 1 -1 p p n u 6000 localhost")
      (by simp) (by rfl)⟩

/-- C4 counterexample: with three records at one content id in the order
mirror, mirror, primary, the built ByContent list keeps both mirrors before
the only primary (the swap normalization only fires when the list has
exactly two entries), so a content id holding both a primary and a mirror
record does not always order primary first. -/
theorem counterexample_C4_three_records :
    ((NewCluster [mirrorSegA, mirrorSegB, primarySegC]).ByContent 0).map
        (fun s => s.Role) = ["m", "m", "p"]
      ∧ (∃ s ∈ (NewCluster [mirrorSegA, mirrorSegB, primarySegC]).ByContent 0,
          s.Role = "p")
      ∧ (∃ s ∈ (NewCluster [mirrorSegA, mirrorSegB, primarySegC]).ByContent 0,
          s.Role = "m")
      ∧ ¬(((NewCluster [mirrorSegA, mirrorSegB, primarySegC]).ByContent 0).findIdx
            (fun s => s.Role == "p")
          < ((NewCluster [mirrorSegA, mirrorSegB, primarySegC]).ByContent 0).findIdx
            (fun s => s.Role == "m")) := by
  refine ⟨by rfl, ⟨primarySegC, by decide, rfl⟩, ⟨mirrorSegA, by decide, rfl⟩, ?_⟩
  decide

/-- C4 (amended): for every input sequence, at any content id whose built
ByContent list holds exactly two records, one primary and one mirror, the
primary record precedes the mirror record, regardless of the order the two
records appeared in the input. -/
theorem claim_C4_primary_before_mirror (segConfigs : List SegConfig) (c : Int)
    (l : List SegConfig) (hl : (NewCluster segConfigs).ByContent c = l)
    (hlen : l.length = 2)
    (hp : ∃ s ∈ l, s.Role = "p") (hm : ∃ s ∈ l, s.Role = "m") :
    ∃ a b, l = [a, b] ∧ a.Role = "p" ∧ b.Role = "m" := by
  rw [byContent_newCluster] at hl
  have hfl : (segConfigs.filter (fun s => s.ContentID == c)).length = 2 := by
    have := foldl_normalizePair_length
      (segConfigs.filter (fun s => s.ContentID == c)) []
    rw [hl, hlen] at this
    simpa using this.symm
  obtain ⟨r1, r2, hfl2⟩ := List.length_eq_two.mp hfl
  rw [hfl2] at hl
  simp only [List.foldl_cons, List.foldl_nil, List.nil_append] at hl
  have hl1 : normalizePair [r1] = [r1] := rfl
  rw [hl1] at hl
  rw [List.singleton_append] at hl
  cases hrole : (r1.Role == "m") with
  | true =>
      have hl2 : l = [r2, r1] := by
        rw [← hl]
        simp [normalizePair, hrole]
      refine ⟨r2, r1, hl2, ?_, beq_iff_eq.mp hrole⟩
      obtain ⟨s, hs, hsp⟩ := hp
      rw [hl2] at hs
      rcases List.mem_pair.mp hs with rfl | rfl
      · exact hsp
      · rw [beq_iff_eq.mp hrole] at hsp
        exact absurd hsp (by decide)
  | false =>
      have hl2 : l = [r1, r2] := by
        rw [← hl]
        simp [normalizePair, hrole]
      have hr1m : r1.Role ≠ "m" := by
        intro habs
        rw [habs] at hrole
        simp at hrole
      have hr2 : r2.Role = "m" := by
        obtain ⟨s, hs, hsm⟩ := hm
        rw [hl2] at hs
        rcases List.mem_pair.mp hs with rfl | rfl
        · exact absurd hsm hr1m
        · exact hsm
      refine ⟨r1, r2, hl2, ?_, hr2⟩
      obtain ⟨s, hs, hsp⟩ := hp
      rw [hl2] at hs
      rcases List.mem_pair.mp hs with rfl | rfl
      · exact hsp
      · rw [hr2] at hsp
        exact absurd hsp (by decide)

/-- C4 witness: the two coordinator records given mirror-first still come
out primary-first. -/
theorem claim_C4_primary_before_mirror_witness :
    ∃ a b, (NewCluster [standbySeg, coordSeg]).ByContent (-1) = [a, b]
      ∧ a.Role = "p" ∧ b.Role = "m" :=
  claim_C4_primary_before_mirror [standbySeg, coordSeg] (-1)
    ((NewCluster [standbySeg, coordSeg]).ByContent (-1)) rfl (by rfl)
    ⟨coordSeg, by decide, rfl⟩ ⟨standbySeg, by decide, rfl⟩

/-- C2: a command whose attempts 1..N-1 fail and whose attempt N succeeds
ends with no terminal error, the completed flag set, a non-empty retry
error of exactly the N-1 wrapped attempt errors, and exactly N attempts
executed (none after the first success). -/
theorem claim_C2_retry_then_succeed (scope : Scope)
    (cmds : List ShellCommand) (runner : Nat → Nat → AttemptOutcome)
    (N i : Nat) (c : ShellCommand)
    (hget : cmds.get? i = some c) (hfresh : c.RetryError = [])
    (hN : 2 ≤ N)
    (hfail : ∀ k, 1 ≤ k → k < N → (runner i k).err ≠ none)
    (hsucc : (runner i N).err = none) :
    ∃ d, (ExecuteClusterCommandWithRetries scope cmds runner N).Commands.get? i
        = some d
      ∧ d.Error = none
      ∧ d.Completed = true
      ∧ d.RetryError = (List.range' 1 (N - 1)).map
          (fun k => wrapAttemptError k (runner i k))
      ∧ d.RetryError ≠ []
      ∧ (runShellCommand (runner i) N c).attemptsMade = N := by
  have hcmds : (ExecuteClusterCommandWithRetries scope cmds runner N).Commands
      = executeFrom runner N 0 cmds := rfl
  have hrun : runShellCommand (runner i) N c =
      { stdout := (runner i N).stdout
        stderr := (runner i N).stderr
        error := none
        retryError := c.RetryError ++ (List.range' 1 (N - 1)).map
          (fun k => wrapAttemptError k (runner i k))
        attemptsMade := 0 + (N - 1) + 1
        sleeps := 0 + (N - 1) } := by
    unfold runShellCommand
    exact retryLoop_success (runner i) N (N - 1) 1 _ (by omega) (by omega)
      hfail hsucc
  refine ⟨finishShellCommand c (runShellCommand (runner i) N c), ?_, ?_, ?_,
    ?_, ?_, ?_⟩
  · rw [hcmds, executeFrom_get, hget]
    simp
  · rw [hrun]
    rfl
  · rfl
  · rw [hrun]
    simp [finishShellCommand, hfresh]
  · rw [hrun]
    simp only [finishShellCommand, hfresh, List.nil_append]
    intro habs
    have h0 := List.range'_eq_nil.mp (List.map_eq_nil_iff.mp habs)
    omega
  · rw [hrun]
    simp only [ExecState.attemptsMade]
    omega

/-- C2 witness: one command, two attempts, failing once then succeeding. -/
theorem claim_C2_retry_then_succeed_witness :
    ∃ d, (ExecuteClusterCommandWithRetries 0 [retryCommandFixture]
          failThenSucceedRunner 2).Commands.get? 0 = some d
      ∧ d.Error = none
      ∧ d.Completed = true
      ∧ d.RetryError = (List.range' 1 (2 - 1)).map
          (fun k => wrapAttemptError k (failThenSucceedRunner 0 k))
      ∧ d.RetryError ≠ []
      ∧ (runShellCommand (failThenSucceedRunner 0) 2
          retryCommandFixture).attemptsMade = 2 :=
  claim_C2_retry_then_succeed 0 [retryCommandFixture] failThenSucceedRunner 2 0
    retryCommandFixture rfl rfl (by omega)
    (by
      intro k h1 h2
      have hk : k = 1 := by omega
      subst hk
      simp [failThenSucceedRunner])
    rfl

/-- C3: a command whose every attempt fails is, after maxAttempts attempts,
marked completed with the last attempt's error as its non-nil terminal
error and exactly maxAttempts wrapped attempt errors recorded; the retry
sleep happens between consecutive attempts but never after the final one,
so exactly maxAttempts - 1 sleeps occur. -/
theorem claim_C3_all_attempts_fail (scope : Scope)
    (cmds : List ShellCommand) (runner : Nat → Nat → AttemptOutcome)
    (N i : Nat) (c : ShellCommand)
    (hget : cmds.get? i = some c) (hfresh : c.RetryError = [])
    (hN : 1 ≤ N)
    (hfail : ∀ k, 1 ≤ k → k ≤ N → (runner i k).err ≠ none) :
    ∃ d, (ExecuteClusterCommandWithRetries scope cmds runner N).Commands.get? i
        = some d
      ∧ d.Completed = true
      ∧ d.Error = (runner i N).err
      ∧ d.Error ≠ none
      ∧ d.RetryError = (List.range' 1 N).map
          (fun k => wrapAttemptError k (runner i k))
      ∧ d.RetryError.length = N
      ∧ (runShellCommand (runner i) N c).attemptsMade = N
      ∧ (runShellCommand (runner i) N c).sleeps = N - 1 := by
  have hcmds : (ExecuteClusterCommandWithRetries scope cmds runner N).Commands
      = executeFrom runner N 0 cmds := rfl
  have hN1 : N + 1 - 1 = N := by omega
  have hrun : runShellCommand (runner i) N c =
      { stdout := (runner i N).stdout
        stderr := (runner i N).stderr
        error := (runner i N).err
        retryError := c.RetryError ++ (List.range' 1 N).map
          (fun k => wrapAttemptError k (runner i k))
        attemptsMade := 0 + N
        sleeps := 0 + (N - 1) } := by
    unfold runShellCommand
    have h := retryLoop_all_fail (runner i) N (N - 1) 1
      { stdout := ""
        stderr := ""
        error := none
        retryError := c.RetryError
        attemptsMade := 0
        sleeps := 0 } (by omega) (by omega) hfail
    rw [hN1] at h
    exact h
  refine ⟨finishShellCommand c (runShellCommand (runner i) N c), ?_, ?_, ?_,
    ?_, ?_, ?_, ?_, ?_⟩
  · rw [hcmds, executeFrom_get, hget]
    simp
  · rfl
  · rw [hrun]
    rfl
  · rw [hrun]
    simp only [finishShellCommand]
    exact hfail N hN (le_refl N)
  · rw [hrun]
    simp [finishShellCommand, hfresh]
  · rw [hrun]
    simp [finishShellCommand, hfresh]
  · rw [hrun]
    simp only [ExecState.attemptsMade]
    omega
  · rw [hrun]
    simp only [ExecState.sleeps]
    omega

/-- C3 witness: one command, two attempts, both failing. -/
theorem claim_C3_all_attempts_fail_witness :
    ∃ d, (ExecuteClusterCommandWithRetries 0 [retryCommandFixture]
          alwaysFailRunner 2).Commands.get? 0 = some d
      ∧ d.Completed = true
      ∧ d.Error = (alwaysFailRunner 0 2).err
      ∧ d.Error ≠ none
      ∧ d.RetryError = (List.range' 1 2).map
          (fun k => wrapAttemptError k (alwaysFailRunner 0 k))
      ∧ d.RetryError.length = 2
      ∧ (runShellCommand (alwaysFailRunner 0) 2 retryCommandFixture).attemptsMade = 2
      ∧ (runShellCommand (alwaysFailRunner 0) 2 retryCommandFixture).sleeps = 2 - 1 :=
  claim_C3_all_attempts_fail 0 [retryCommandFixture] alwaysFailRunner 2 0
    retryCommandFixture rfl rfl (by omega)
    (by
      intro k h1 h2
      simp [alwaysFailRunner])

end Cloudberry
